import Mathlib

/-!
Shallow embedding of the platformer gameplay core
(`src/views/game_view.py`, `src/sprites/enemy.py`, `src/sprites/hazards.py`,
`src/sprites/player.py`, `src/levels/level_data.py`, `config.py`).

Python floats are modelled as rationals (`ℚ`); Python ints as `ℤ`/`ℕ`.
The host engine (arcade) provides the physics resolver and the AABB overlap
queries; the spec treats them as abstract capabilities, so the frame update
is parameterised by an `Oracle` of those capabilities.  Everything the
repository's own code computes is embedded directly from the source.
-/

/-! ## config.py constants -/

def GRAVITY : ℚ := 1
def PLAYER_MOVE_SPEED : ℚ := 5
def PLAYER_JUMP_SPEED : ℚ := 20
def PLAYER_MAX_HEALTH : ℤ := 3
def KILL_PLANE_Y : ℚ := -200
def ANIMATION_RATE : ℚ := 12/100

/-! ## Python numeric primitives

`pyint` is Python `int()` on a float: truncation toward zero.
`pymod` is Python `%` on floats: `a - b * floor(a / b)` (sign of `b`). -/

def pyint (q : ℚ) : ℤ := if q < 0 then ⌈q⌉ else ⌊q⌋

def pymod (a b : ℚ) : ℚ := a - b * (⌊a / b⌋ : ℤ)

/-! ## Player sprite (`src/sprites/player.py`)

Texture identities stand in for the loaded texture objects. -/

inductive PlayerTexture where
  | idle
  | jump
  | walk (i : ℕ)
  deriving DecidableEq

structure Player where
  center_x : ℚ
  center_y : ℚ
  change_x : ℚ
  change_y : ℚ
  facing_right : Bool
  cur_walk_frame : ℕ
  frame_time : ℚ
  texture : PlayerTexture
  flip_h : Bool
  deriving DecidableEq

/-- Fresh `PlayerSprite` (arcade sprite defaults: position 0, velocity 0). -/
def newPlayer : Player :=
  { center_x := 0, center_y := 0, change_x := 0, change_y := 0,
    facing_right := true, cur_walk_frame := 0, frame_time := 0,
    texture := .idle, flip_h := false }

/-- `PlayerSprite.update_animation` (walk texture list has 8 frames). -/
def Player.update_animation (p : Player) (delta_time : ℚ) : Player :=
  let facing_right :=
    if p.change_x < 0 then false
    else if 0 < p.change_x then true
    else p.facing_right
  let is_jumping : Bool := decide (1 < p.change_y) || decide (p.change_y < -1)
  let is_moving : Bool := decide (1/10 < |p.change_x|)
  if is_jumping then
    { p with facing_right := facing_right, texture := .jump,
             flip_h := !facing_right }
  else if is_moving then
    let ft := p.frame_time + delta_time
    if ANIMATION_RATE < ft then
      let fr := (p.cur_walk_frame + 1) % 8
      { p with facing_right := facing_right, frame_time := 0,
               cur_walk_frame := fr, texture := .walk fr,
               flip_h := !facing_right }
    else
      { p with facing_right := facing_right, frame_time := ft,
               texture := .walk p.cur_walk_frame, flip_h := !facing_right }
  else
    { p with facing_right := facing_right, texture := .idle,
             flip_h := !facing_right, cur_walk_frame := 0, frame_time := 0 }

/-! ## Enemy sprite (`src/sprites/enemy.py`) -/

structure EnemySprite where
  center_x : ℚ
  center_y : ℚ
  patrol_min_x : ℚ
  patrol_max_x : ℚ
  change_x : ℚ
  deriving DecidableEq

/-- `EnemySprite.update`: advance by `change_x`, bounce off patrol bounds. -/
def EnemySprite.update (e : EnemySprite) : EnemySprite :=
  let x := e.center_x + e.change_x
  if x < e.patrol_min_x then
    { e with center_x := e.patrol_min_x, change_x := e.change_x * (-1) }
  else if e.patrol_max_x < x then
    { e with center_x := e.patrol_max_x, change_x := e.change_x * (-1) }
  else
    { e with center_x := x }

/-! ## Hazard sprites (`src/sprites/hazards.py`) -/

inductive HazardKind where
  | lava
  | water
  deriving DecidableEq

structure Hazard where
  kind : HazardKind
  center_x : ℚ
  center_y : ℚ
  width : ℚ
  time : ℚ
  base_y : ℚ
  alpha : ℕ
  deriving DecidableEq

/-- `LavaHazard.update_animation` / `WaterHazard.update_animation`.
Lava: `alpha = int(200 + 55 * abs(int(time * 4) % 2))`.
Water: `center_y = base_y + int(3 * (time * 2) % 2)` (Python precedence:
`(3 * (time * 2)) % 2`). -/
def Hazard.update_animation (h : Hazard) (delta_time : ℚ) : Hazard :=
  match h.kind with
  | .lava =>
      let t := h.time + delta_time
      { h with time := t, alpha := 200 + 55 * ((pyint (t * 4)) % 2).natAbs }
  | .water =>
      let t := h.time + delta_time
      { h with time := t,
               center_y := h.base_y + (pyint (pymod (3 * (t * 2)) 2) : ℚ) }

/-! ## Coins and goal (plain arcade sprites created in `GameView.setup`) -/

structure Coin where
  center_x : ℚ
  center_y : ℚ
  deriving DecidableEq

structure GoalSprite where
  center_x : ℚ
  center_y : ℚ
  deriving DecidableEq

/-! ## Level data (`src/levels/level_data.py`) -/

structure EnemySpec where
  position : ℚ × ℚ
  patrol_min_x : ℚ
  patrol_max_x : ℚ
  speed : ℚ
  deriving DecidableEq

structure HazardSpec where
  type : String
  position : ℚ × ℚ
  width : ℚ
  deriving DecidableEq

structure LevelData where
  name : String
  player_start : ℚ × ℚ
  ground_segments : List (ℤ × ℤ × ℚ)
  platforms : List (ℚ × ℚ)
  coins : List (ℚ × ℚ)
  goal_position : ℚ × ℚ
  enemies : List EnemySpec
  hazards : List HazardSpec
  kill_plane_y : ℚ
  deriving DecidableEq

def level1 : LevelData :=
  { name := "Forest Path"
    player_start := (100, 200)
    ground_segments := [(0, 300, 100), (400, 700, 100), (800, 1000, 100)]
    platforms := [(200, 150), (500, 200), (600, 250), (900, 200)]
    coins := [(250, 220), (350, 220), (550, 270), (650, 320), (950, 270)]
    goal_position := (950, 270)
    enemies := [{ position := (300, 170), patrol_min_x := 250,
                  patrol_max_x := 350, speed := 2 }]
    hazards := []
    kill_plane_y := KILL_PLANE_Y }

def level2 : LevelData :=
  { name := "Mountain Climb"
    player_start := (100, 150)
    ground_segments := [(0, 200, 100), (300, 500, 150), (600, 800, 200),
                        (850, 1000, 250)]
    platforms := [(250, 200), (450, 250), (550, 300), (750, 350), (900, 400)]
    coins := [(150, 170), (350, 320), (450, 370), (600, 370), (650, 420),
              (800, 470), (950, 520)]
    goal_position := (950, 520)
    enemies := [{ position := (400, 220), patrol_min_x := 350,
                  patrol_max_x := 450, speed := 5/2 },
                { position := (700, 270), patrol_min_x := 650,
                  patrol_max_x := 750, speed := 5/2 }]
    hazards := [{ type := "lava", position := (250, 75), width := 150 }]
    kill_plane_y := KILL_PLANE_Y }

def level3 : LevelData :=
  { name := "Volcano Challenge"
    player_start := (100, 200)
    ground_segments := [(0, 150, 100), (200, 350, 150), (400, 550, 200),
                        (600, 750, 150), (800, 1000, 200)]
    platforms := [(300, 250), (500, 300), (700, 250), (850, 300)]
    coins := [(120, 270), (250, 320), (350, 370), (450, 420), (550, 420),
              (650, 320), (750, 370), (900, 420)]
    goal_position := (950, 420)
    enemies := [{ position := (250, 220), patrol_min_x := 200,
                  patrol_max_x := 300, speed := 3 },
                { position := (450, 270), patrol_min_x := 400,
                  patrol_max_x := 500, speed := 3 },
                { position := (650, 220), patrol_min_x := 600,
                  patrol_max_x := 700, speed := 3 }]
    hazards := [{ type := "lava", position := (175, 75), width := 100 },
                { type := "water", position := (375, 75), width := 150 },
                { type := "lava", position := (775, 75), width := 200 }]
    kill_plane_y := KILL_PLANE_Y }

def LEVELS : List LevelData := [level1, level2, level3]

/-- `LEVELS[i]`.  An out-of-range index is a fatal configuration error in the
program (Python raises); every theorem below carries `i < LEVELS.length`,
so the default is never exercised. -/
def getLevel (i : ℕ) : LevelData := LEVELS.getD i level1

/-! ## Constructors run by `GameView.setup` -/

/-- `EnemySprite.__init__` from an enemy spec. -/
def mkEnemy (s : EnemySpec) : EnemySprite :=
  { center_x := s.position.1, center_y := s.position.2,
    patrol_min_x := s.patrol_min_x, patrol_max_x := s.patrol_max_x,
    change_x := s.speed }

/-- Hazard dispatch in `GameView.setup`: `"lava"` builds a `LavaHazard`,
anything else a `WaterHazard`.  Both constructors set `time = 0`,
`base_y = position.y`; arcade's sprite default alpha is 255. -/
def mkHazard (s : HazardSpec) : Hazard :=
  if s.type = "lava" then
    { kind := .lava, center_x := s.position.1, center_y := s.position.2,
      width := s.width, time := 0, base_y := s.position.2, alpha := 255 }
  else
    { kind := .water, center_x := s.position.1, center_y := s.position.2,
      width := s.width, time := 0, base_y := s.position.2, alpha := 255 }

/-- Python `range(start_x, end_x, 64)` used for ground tiling. -/
def tileRange (start_x end_x : ℤ) : List ℤ :=
  (List.range (((end_x - start_x).toNat + 63) / 64)).map
    (fun k => start_x + 64 * (k : ℤ))

/-! ## Game session state (`GameView`) -/

structure GameView where
  level_index : ℕ
  score : ℕ
  health : ℤ
  total_coins : ℕ
  level_name : String
  invuln_timer : ℚ
  player : Player
  walls : List (ℚ × ℚ)
  coins : List Coin
  goal : GoalSprite
  enemies : List EnemySprite
  hazards : List Hazard
  move_left : Bool
  move_right : Bool
  deriving DecidableEq

/-- `GameView.__init__` state (the `None` player slot is represented by a
default player; `setup` always replaces it before any update runs). -/
def initialView : GameView :=
  { level_index := 0, score := 0, health := PLAYER_MAX_HEALTH,
    total_coins := 0, level_name := "", invuln_timer := 0,
    player := newPlayer, walls := [], coins := [],
    goal := { center_x := 0, center_y := 0 }, enemies := [], hazards := [],
    move_left := false, move_right := false }

/-- `GameView.setup(level_index)`: rebuild the scene from the level
descriptor; reset score and health only on level 0; always reset the
invulnerability timer. -/
def setup (g : GameView) (level_index : ℕ) : GameView :=
  let level := getLevel level_index
  { level_index := level_index
    level_name := level.name
    player := { newPlayer with center_x := level.player_start.1,
                               center_y := level.player_start.2 }
    walls := (level.ground_segments.flatMap
                (fun seg => (tileRange seg.1 seg.2.1).map
                  (fun x => ((x : ℚ), seg.2.2)))) ++ level.platforms
    coins := level.coins.map (fun p => { center_x := p.1, center_y := p.2 })
    total_coins := level.coins.length
    goal := { center_x := level.goal_position.1,
              center_y := level.goal_position.2 }
    enemies := level.enemies.map mkEnemy
    hazards := level.hazards.map mkHazard
    score := if level_index = 0 then 0 else g.score
    health := if level_index = 0 then PLAYER_MAX_HEALTH else g.health
    invuln_timer := 0
    move_left := g.move_left
    move_right := g.move_right }

/-! ## Host-engine capabilities (spec section 6: abstract) -/

/-- The capabilities the core consumes from arcade: the platformer physics
step (`physics_engine.update()`) and the pairwise overlap queries behind
`check_for_collision(_with_list)`.  Each query receives the current sprite
states, exactly as the call sites pass them. -/
structure Oracle where
  physicsStep : Player → Player
  playerCoin : Player → Coin → Bool
  playerEnemy : Player → EnemySprite → Bool
  playerHazard : Player → Hazard → Bool
  playerGoal : Player → GoalSprite → Bool

/-- Oracle where nothing overlaps and physics moves nothing; used to
instantiate theorems at concrete states. -/
def stillOracle : Oracle :=
  { physicsStep := id
    playerCoin := fun _ _ => false
    playerEnemy := fun _ _ => false
    playerHazard := fun _ _ => false
    playerGoal := fun _ _ => false }

/-! ## Per-frame update (`GameView.on_update` and its helpers) -/

/-- `GameView._handle_input`: horizontal velocity set from the input flags. -/
def handle_input (g : GameView) : GameView :=
  let dx : ℚ := 0
  let dx := if g.move_left then dx - PLAYER_MOVE_SPEED else dx
  let dx := if g.move_right then dx + PLAYER_MOVE_SPEED else dx
  { g with player := { g.player with change_x := dx } }

/-- `GameView._check_coin_collisions`: every coin overlapping the player is
removed from the live list and the score is incremented once per coin. -/
def check_coin_collisions (ov : Oracle) (g : GameView) : GameView :=
  let coins_hit := g.coins.filter (fun c => ov.playerCoin g.player c)
  { g with coins := g.coins.filter (fun c => !(ov.playerCoin g.player c)),
           score := g.score + coins_hit.length }

/-- `GameView._check_enemy_collisions`: decrement the invulnerability timer
(floored at 0); if still positive, skip; otherwise on any enemy overlap,
lose one health, reset the timer to 1.0 s and apply knockback. -/
def check_enemy_collisions (ov : Oracle) (delta_time : ℚ) (g : GameView) :
    GameView :=
  let timer := max 0 (g.invuln_timer - delta_time)
  let g1 := { g with invuln_timer := timer }
  if 0 < timer then g1
  else if g1.enemies.any (fun e => ov.playerEnemy g1.player e) then
    { g1 with health := g1.health - 1, invuln_timer := 1,
              player := { g1.player with
                change_y := PLAYER_JUMP_SPEED / 2,
                change_x := g1.player.change_x * (-1) } }
  else g1

/-- `GameView._check_hazard_collisions`: skipped entirely while the timer is
positive (no decrement here); otherwise on any hazard overlap, lose one
health, reset the timer to 1.0 s and apply an upward knockback. -/
def check_hazard_collisions (ov : Oracle) (g : GameView) : GameView :=
  if 0 < g.invuln_timer then g
  else if g.hazards.any (fun h => ov.playerHazard g.player h) then
    { g with health := g.health - 1, invuln_timer := 1,
             player := { g.player with
               change_y := PLAYER_JUMP_SPEED / (3/2) } }
  else g

/-- `GameView._check_goal`: cleared when the player overlaps the goal sprite
and `score >= total_coins`. -/
def check_goal (ov : Oracle) (g : GameView) : Bool :=
  ov.playerGoal g.player g.goal && decide (g.total_coins ≤ g.score)

/-- `GameView._check_lose`: health exhausted or below the kill plane of the
current level. -/
def check_lose (g : GameView) : Bool :=
  decide (g.health ≤ 0) ||
    decide (g.player.center_y < (getLevel g.level_index).kill_plane_y)

/-- The movement phase of `GameView.on_update`: input, physics step, player
animation, enemy updates, hazard animations, in source order. -/
def preStep (ov : Oracle) (delta_time : ℚ) (g : GameView) : GameView :=
  let g1 := handle_input g
  let g2 := { g1 with player := ov.physicsStep g1.player }
  let g3 := { g2 with player := g2.player.update_animation delta_time }
  let g4 := { g3 with enemies := g3.enemies.map EnemySprite.update }
  { g4 with
    hazards := g4.hazards.map (fun h => h.update_animation delta_time) }

/-- The mutation phase of `GameView.on_update`, before the lose/goal
decision: the movement phase, then the three collision checks in source
order. -/
def frameStep (ov : Oracle) (delta_time : ℚ) (g : GameView) : GameView :=
  check_hazard_collisions ov (check_enemy_collisions ov delta_time
    (check_coin_collisions ov (preStep ov delta_time g)))

/-- The player state that the collision checks of the first zero-elapsed
frame after `setup(i)` observe: input applied, the engine's physics step,
then a zero-time animation update. -/
def spawnProbe (ov : Oracle) (g : GameView) (i : ℕ) : Player :=
  (ov.physicsStep (handle_input (setup g i)).player).update_animation 0

/-- Session outcome of one frame: keep playing (possibly in a freshly set-up
next level), or reach a terminal screen (`GameOverView(False, ...)` on loss,
`GameOverView(True, ...)` on winning the final level). -/
inductive Status where
  | playing (g : GameView)
  | lost (score : ℕ) (level_name : String)
  | won (score : ℕ) (level_name : String)
  deriving DecidableEq

/-- `GameView.on_update`: run the frame, then the lose check (acted on
first), then the goal check; clearing a non-final level re-runs `setup` on
the next index. -/
def on_update (ov : Oracle) (delta_time : ℚ) (g : GameView) : Status :=
  let s := frameStep ov delta_time g
  if check_lose s then Status.lost s.score s.level_name
  else if check_goal ov s then
    if s.level_index + 1 < LEVELS.length then
      Status.playing (setup s (s.level_index + 1))
    else Status.won s.score s.level_name
  else Status.playing s

/-- Session states reachable in one playthrough: the initial `setup(0)`,
frames that stay in `Playing`, the key handlers toggling the movement
flags, and the jump handler (`change_y := PLAYER_JUMP_SPEED`, permitted by
the engine's `can_jump`, which is the abstract resolver's call). -/
inductive Reachable : GameView → Prop
  | start : Reachable (setup initialView 0)
  | step (ov : Oracle) (dt : ℚ) (g g' : GameView) :
      Reachable g → on_update ov dt g = Status.playing g' → Reachable g'
  | keyFlags (g : GameView) (l r : Bool) :
      Reachable g → Reachable { g with move_left := l, move_right := r }
  | jump (g : GameView) :
      Reachable g →
      Reachable { g with
        player := { g.player with change_y := PLAYER_JUMP_SPEED } }

/-! ## Concrete states used to instantiate the theorems -/

/-- Oracle reporting enemy and goal overlap every frame (a player standing
on the goal while touching an enemy). -/
def hitOracle : Oracle :=
  { physicsStep := id
    playerCoin := fun _ _ => false
    playerEnemy := fun _ _ => true
    playerHazard := fun _ _ => false
    playerGoal := fun _ _ => true }

/-- A level-1 session holding all five coins with one heart left. -/
def gBoth : GameView := { setup initialView 0 with health := 1, score := 5 }

/-- A level-1 session carrying a score of 5 into the next level. -/
def gCarry : GameView := { setup initialView 0 with score := 5 }

/-- Oracle reporting only goal overlap (a player standing on the goal). -/
def goalOracle : Oracle :=
  { physicsStep := id
    playerCoin := fun _ _ => false
    playerEnemy := fun _ _ => false
    playerHazard := fun _ _ => false
    playerGoal := fun _ _ => true }

/-- The water hazard of level 3, as `setup` builds it. -/
def waterW : Hazard :=
  mkHazard { type := "water", position := (375, 75), width := 150 }

/-- The level-1 enemy, as `setup` builds it. -/
def enemyW : EnemySprite :=
  mkEnemy { position := (300, 170), patrol_min_x := 250,
            patrol_max_x := 350, speed := 2 }

/-! ## Theorems -/

/-- `EnemySprite.update` never touches the patrol bounds and never changes
the magnitude of the horizontal velocity. -/
lemma enemyUpdate_fields (e : EnemySprite) :
    (e.update).patrol_min_x = e.patrol_min_x ∧
    (e.update).patrol_max_x = e.patrol_max_x ∧
    |(e.update).change_x| = |e.change_x| := by
  unfold EnemySprite.update
  dsimp only
  split_ifs <;> simp [abs_mul]

/-- One `EnemySprite.update` lands inside the patrol bounds whenever the
bounds are ordered, wherever the enemy started. -/
lemma enemyUpdate_bounds (e : EnemySprite)
    (hb : e.patrol_min_x ≤ e.patrol_max_x) :
    e.patrol_min_x ≤ (e.update).center_x ∧
    (e.update).center_x ≤ e.patrol_max_x := by
  unfold EnemySprite.update
  dsimp only
  split_ifs with h1 h2 <;> simp_all

/-- C7: an enemy with ordered patrol bounds that starts inside them stays
inside them after every number of `update` calls; a step that would cross a
boundary clamps to that boundary and negates the velocity; the velocity
magnitude is invariant. -/
theorem enemy_patrol_invariant (e : EnemySprite) (n : ℕ)
    (hb : e.patrol_min_x ≤ e.patrol_max_x)
    (hlo : e.patrol_min_x ≤ e.center_x) (hhi : e.center_x ≤ e.patrol_max_x) :
    (e.patrol_min_x ≤ (EnemySprite.update^[n] e).center_x ∧
      (EnemySprite.update^[n] e).center_x ≤ e.patrol_max_x) ∧
    |(EnemySprite.update^[n] e).change_x| = |e.change_x| ∧
    (e.center_x + e.change_x < e.patrol_min_x →
      (e.update).center_x = e.patrol_min_x ∧
      (e.update).change_x = -e.change_x) ∧
    (e.patrol_max_x < e.center_x + e.change_x →
      (e.update).center_x = e.patrol_max_x ∧
      (e.update).change_x = -e.change_x) := by
  have key : ∀ m, (EnemySprite.update^[m] e).patrol_min_x = e.patrol_min_x ∧
      (EnemySprite.update^[m] e).patrol_max_x = e.patrol_max_x ∧
      |(EnemySprite.update^[m] e).change_x| = |e.change_x| ∧
      (e.patrol_min_x ≤ (EnemySprite.update^[m] e).center_x ∧
        (EnemySprite.update^[m] e).center_x ≤ e.patrol_max_x) := by
    intro m
    induction m with
    | zero => exact ⟨rfl, rfl, rfl, hlo, hhi⟩
    | succ m ih =>
      obtain ⟨h1, h2, h3, _, _⟩ := ih
      rw [Function.iterate_succ_apply']
      obtain ⟨f1, f2, f3⟩ := enemyUpdate_fields (EnemySprite.update^[m] e)
      have hb2 := enemyUpdate_bounds (EnemySprite.update^[m] e)
        (by rw [h1, h2]; exact hb)
      refine ⟨by rw [f1, h1], by rw [f2, h2], by rw [f3, h3], ?_, ?_⟩
      · rw [← h1]; exact hb2.1
      · rw [← h2]; exact hb2.2
  refine ⟨(key n).2.2.2, (key n).2.2.1, ?_, ?_⟩
  · intro h
    unfold EnemySprite.update
    dsimp only
    simp only [h, if_pos]
    constructor <;> simp
  · intro h
    unfold EnemySprite.update
    dsimp only
    have hnl : ¬ (e.center_x + e.change_x < e.patrol_min_x) := by linarith
    simp only [hnl, if_neg, if_pos h]
    constructor <;> simp

theorem enemy_patrol_invariant_witness :
    (enemyW.patrol_min_x ≤ enemyW.patrol_max_x ∧
      enemyW.patrol_min_x ≤ enemyW.center_x ∧
      enemyW.center_x ≤ enemyW.patrol_max_x) ∧
    ((enemyW.patrol_min_x ≤ (EnemySprite.update^[3] enemyW).center_x ∧
      (EnemySprite.update^[3] enemyW).center_x ≤ enemyW.patrol_max_x) ∧
    |(EnemySprite.update^[3] enemyW).change_x| = |enemyW.change_x| ∧
    (enemyW.center_x + enemyW.change_x < enemyW.patrol_min_x →
      (enemyW.update).center_x = enemyW.patrol_min_x ∧
      (enemyW.update).change_x = -enemyW.change_x) ∧
    (enemyW.patrol_max_x < enemyW.center_x + enemyW.change_x →
      (enemyW.update).center_x = enemyW.patrol_max_x ∧
      (enemyW.update).change_x = -enemyW.change_x)) :=
  ⟨⟨by norm_num [enemyW, mkEnemy], by norm_num [enemyW, mkEnemy],
    by norm_num [enemyW, mkEnemy]⟩,
   enemy_patrol_invariant enemyW 3 (by norm_num [enemyW, mkEnemy])
     (by norm_num [enemyW, mkEnemy]) (by norm_num [enemyW, mkEnemy])⟩

/-- C8: every coin overlapping the player is removed and scores exactly one
point, unconditionally; no overlapping coin survives the check; and the
check is idempotent — an already-removed coin can never score again. -/
theorem coin_pickup_spec (ov : Oracle) (g : GameView) :
    (check_coin_collisions ov g).score =
      g.score + g.coins.countP (fun c => ov.playerCoin g.player c) ∧
    (check_coin_collisions ov g).coins =
      g.coins.filter (fun c => !(ov.playerCoin g.player c)) ∧
    (∀ c ∈ (check_coin_collisions ov g).coins,
        ov.playerCoin g.player c = false) ∧
    check_coin_collisions ov (check_coin_collisions ov g) =
      check_coin_collisions ov g := by
  refine ⟨?_, rfl, ?_, ?_⟩
  · simp [check_coin_collisions, List.countP_eq_length_filter]
  · intro c hc
    simp only [check_coin_collisions, List.mem_filter] at hc
    simpa using hc.2
  · simp [check_coin_collisions, List.filter_filter,
      List.countP_eq_length_filter]

/-- C4: `setup(i)` places the player at the descriptor's start position,
resets the invulnerability timer to 0, and resets score and health exactly
when `i = 0`, preserving them otherwise. -/
theorem setup_state (g : GameView) (i : ℕ) (hi : i < LEVELS.length) :
    (setup g i).player.center_x = (getLevel i).player_start.1 ∧
    (setup g i).player.center_y = (getLevel i).player_start.2 ∧
    (setup g i).invuln_timer = 0 ∧
    (setup g i).score = (if i = 0 then 0 else g.score) ∧
    (setup g i).health = (if i = 0 then PLAYER_MAX_HEALTH else g.health) :=
  ⟨rfl, rfl, rfl, rfl, rfl⟩

theorem setup_state_witness :
    (1 < LEVELS.length) ∧
    ((setup initialView 1).player.center_x = (getLevel 1).player_start.1 ∧
     (setup initialView 1).player.center_y = (getLevel 1).player_start.2 ∧
     (setup initialView 1).invuln_timer = 0 ∧
     (setup initialView 1).score = (if 1 = 0 then 0 else initialView.score) ∧
     (setup initialView 1).health =
       (if 1 = 0 then PLAYER_MAX_HEALTH else initialView.health)) :=
  ⟨by norm_num [LEVELS], setup_state initialView 1 (by norm_num [LEVELS])⟩

/-- C5: the invulnerability timer stays non-negative; the coin check never
touches it; the enemy check decrements it (floored at 0) before deciding
damage and skips damage while it is still positive; the hazard check is a
complete no-op while the timer is positive (no second decrement); without
damage the frame's two damage checks leave it at `max 0 (timer - dt)`,
which is non-increasing; and each damage event resets it to 1 second. -/
theorem invuln_timer_behavior (ov : Oracle) (dt : ℚ) (g : GameView)
    (hdt : 0 ≤ dt) (ht : 0 ≤ g.invuln_timer) :
    (check_coin_collisions ov g).invuln_timer = g.invuln_timer ∧
    0 ≤ (check_enemy_collisions ov dt g).invuln_timer ∧
    0 ≤ (check_hazard_collisions ov
          (check_enemy_collisions ov dt g)).invuln_timer ∧
    (0 < max 0 (g.invuln_timer - dt) →
      check_enemy_collisions ov dt g =
        { g with invuln_timer := max 0 (g.invuln_timer - dt) }) ∧
    ((check_hazard_collisions ov (check_enemy_collisions ov dt g)).health =
        g.health →
      (check_hazard_collisions ov
          (check_enemy_collisions ov dt g)).invuln_timer =
        max 0 (g.invuln_timer - dt) ∧
      (check_hazard_collisions ov
          (check_enemy_collisions ov dt g)).invuln_timer ≤ g.invuln_timer) ∧
    (0 < (check_enemy_collisions ov dt g).invuln_timer →
      check_hazard_collisions ov (check_enemy_collisions ov dt g) =
        check_enemy_collisions ov dt g) ∧
    ((check_enemy_collisions ov dt g).health ≠ g.health →
      (check_enemy_collisions ov dt g).invuln_timer = 1) ∧
    ((check_hazard_collisions ov (check_enemy_collisions ov dt g)).health ≠
        (check_enemy_collisions ov dt g).health →
      (check_hazard_collisions ov
          (check_enemy_collisions ov dt g)).invuln_timer = 1) := by
  have hmax : (0:ℚ) ≤ max 0 (g.invuln_timer - dt) := le_max_left _ _
  have hmax2 : max 0 (g.invuln_timer - dt) ≤ g.invuln_timer := by
    rw [max_le_iff]; constructor <;> linarith
  unfold check_hazard_collisions check_enemy_collisions check_coin_collisions
  dsimp only
  split_ifs <;> simp_all

theorem invuln_timer_behavior_witness :
    ((0:ℚ) ≤ 0 ∧ 0 ≤ gBoth.invuln_timer) ∧
    ((check_coin_collisions stillOracle gBoth).invuln_timer =
        gBoth.invuln_timer ∧
    0 ≤ (check_enemy_collisions stillOracle 0 gBoth).invuln_timer ∧
    0 ≤ (check_hazard_collisions stillOracle
          (check_enemy_collisions stillOracle 0 gBoth)).invuln_timer ∧
    (0 < max 0 (gBoth.invuln_timer - 0) →
      check_enemy_collisions stillOracle 0 gBoth =
        { gBoth with invuln_timer := max 0 (gBoth.invuln_timer - 0) }) ∧
    ((check_hazard_collisions stillOracle
          (check_enemy_collisions stillOracle 0 gBoth)).health =
        gBoth.health →
      (check_hazard_collisions stillOracle
          (check_enemy_collisions stillOracle 0 gBoth)).invuln_timer =
        max 0 (gBoth.invuln_timer - 0) ∧
      (check_hazard_collisions stillOracle
          (check_enemy_collisions stillOracle 0 gBoth)).invuln_timer ≤
        gBoth.invuln_timer) ∧
    (0 < (check_enemy_collisions stillOracle 0 gBoth).invuln_timer →
      check_hazard_collisions stillOracle
          (check_enemy_collisions stillOracle 0 gBoth) =
        check_enemy_collisions stillOracle 0 gBoth) ∧
    ((check_enemy_collisions stillOracle 0 gBoth).health ≠ gBoth.health →
      (check_enemy_collisions stillOracle 0 gBoth).invuln_timer = 1) ∧
    ((check_hazard_collisions stillOracle
          (check_enemy_collisions stillOracle 0 gBoth)).health ≠
        (check_enemy_collisions stillOracle 0 gBoth).health →
      (check_hazard_collisions stillOracle
          (check_enemy_collisions stillOracle 0 gBoth)).invuln_timer = 1)) :=
  ⟨⟨le_refl 0, by norm_num [gBoth, setup, initialView]⟩,
   invuln_timer_behavior stillOracle 0 gBoth (le_refl 0)
     (by norm_num [gBoth, setup, initialView])⟩

/-- C1: whenever the lose condition holds at the end of a frame's collision
phase, the frame resolves to the `Lost` terminal state — even if the clear
condition holds in the same frame — because `on_update` acts on the lose
check before the goal check. -/
theorem lose_priority (ov : Oracle) (dt : ℚ) (g : GameView)
    (hlose : check_lose (frameStep ov dt g) = true)
    (hgoal : check_goal ov (frameStep ov dt g) = true) :
    on_update ov dt g =
      Status.lost (frameStep ov dt g).score
        (frameStep ov dt g).level_name := by
  unfold on_update
  simp [hlose]

theorem lose_priority_witness :
    (check_lose (frameStep hitOracle 0 gBoth) = true ∧
      check_goal hitOracle (frameStep hitOracle 0 gBoth) = true) ∧
    on_update hitOracle 0 gBoth =
      Status.lost (frameStep hitOracle 0 gBoth).score
        (frameStep hitOracle 0 gBoth).level_name :=
  ⟨⟨by norm_num [frameStep, preStep, handle_input, check_coin_collisions,
      check_enemy_collisions, check_hazard_collisions, check_lose, gBoth,
      hitOracle, setup, initialView, getLevel, LEVELS, level1, newPlayer,
      mkEnemy, Player.update_animation, EnemySprite.update,
      Hazard.update_animation, mkHazard, KILL_PLANE_Y, PLAYER_MAX_HEALTH,
      PLAYER_JUMP_SPEED, PLAYER_MOVE_SPEED],
    by norm_num [frameStep, preStep, handle_input, check_coin_collisions,
      check_enemy_collisions, check_hazard_collisions, check_goal, gBoth,
      hitOracle, setup, initialView, getLevel, LEVELS, level1, newPlayer,
      mkEnemy, Player.update_animation, EnemySprite.update,
      Hazard.update_animation, mkHazard, KILL_PLANE_Y, PLAYER_MAX_HEALTH,
      PLAYER_JUMP_SPEED, PLAYER_MOVE_SPEED]⟩,
   lose_priority hitOracle 0 gBoth
     (by norm_num [frameStep, preStep, handle_input, check_coin_collisions,
        check_enemy_collisions, check_hazard_collisions, check_lose, gBoth,
        hitOracle, setup, initialView, getLevel, LEVELS, level1, newPlayer,
        mkEnemy, Player.update_animation, EnemySprite.update,
        Hazard.update_animation, mkHazard, KILL_PLANE_Y, PLAYER_MAX_HEALTH,
        PLAYER_JUMP_SPEED, PLAYER_MOVE_SPEED])
     (by norm_num [frameStep, preStep, handle_input, check_coin_collisions,
        check_enemy_collisions, check_hazard_collisions, check_goal, gBoth,
        hitOracle, setup, initialView, getLevel, LEVELS, level1, newPlayer,
        mkEnemy, Player.update_animation, EnemySprite.update,
        Hazard.update_animation, mkHazard, KILL_PLANE_Y, PLAYER_MAX_HEALTH,
        PLAYER_JUMP_SPEED, PLAYER_MOVE_SPEED])⟩

lemma check_enemy_base_fields (ov : Oracle) (dt : ℚ) (g : GameView) :
    (check_enemy_collisions ov dt g).level_index = g.level_index ∧
    (check_enemy_collisions ov dt g).total_coins = g.total_coins ∧
    (check_enemy_collisions ov dt g).level_name = g.level_name ∧
    (check_enemy_collisions ov dt g).score = g.score ∧
    ((check_enemy_collisions ov dt g).health = g.health ∨
      ((check_enemy_collisions ov dt g).health = g.health - 1 ∧
        (check_enemy_collisions ov dt g).invuln_timer = 1)) := by
  unfold check_enemy_collisions
  dsimp only
  split_ifs <;> simp

lemma check_hazard_base_fields (ov : Oracle) (g : GameView) :
    (check_hazard_collisions ov g).level_index = g.level_index ∧
    (check_hazard_collisions ov g).total_coins = g.total_coins ∧
    (check_hazard_collisions ov g).level_name = g.level_name ∧
    (check_hazard_collisions ov g).score = g.score ∧
    ((check_hazard_collisions ov g).health = g.health ∨
      (check_hazard_collisions ov g).health = g.health - 1) := by
  unfold check_hazard_collisions
  split_ifs <;> simp

lemma check_hazard_skip (ov : Oracle) (g : GameView)
    (h : 0 < g.invuln_timer) : check_hazard_collisions ov g = g := by
  unfold check_hazard_collisions
  rw [if_pos h]

lemma frameStep_health_cases (ov : Oracle) (dt : ℚ) (g : GameView) :
    (frameStep ov dt g).level_index = g.level_index ∧
    (frameStep ov dt g).total_coins = g.total_coins ∧
    (frameStep ov dt g).level_name = g.level_name ∧
    ((frameStep ov dt g).health = g.health ∨
      (frameStep ov dt g).health = g.health - 1) := by
  obtain ⟨e1, e2, e3, e4, e5⟩ := check_enemy_base_fields ov dt
    (check_coin_collisions ov (preStep ov dt g))
  obtain ⟨z1, z2, z3, z4, z5⟩ := check_hazard_base_fields ov
    (check_enemy_collisions ov dt
      (check_coin_collisions ov (preStep ov dt g)))
  unfold frameStep
  refine ⟨by rw [z1, e1]; rfl, by rw [z2, e2]; rfl, by rw [z3, e3]; rfl, ?_⟩
  rcases e5 with e5 | ⟨e5, etimer⟩
  · rcases z5 with z5 | z5 <;> rw [z5, e5]
    · left; rfl
    · right; rfl
  · rw [check_hazard_skip ov _ (by rw [etimer]; norm_num), e5]
    right; rfl

lemma check_lose_false_health (s : GameView) (hs : check_lose s = false) :
    0 < s.health := by
  by_contra hc
  push_neg at hc
  simp [check_lose, hc] at hs

lemma reachable_health (g : GameView) (hg : Reachable g) :
    0 ≤ g.health ∧ g.health ≤ PLAYER_MAX_HEALTH := by
  induction hg with
  | start => constructor <;> simp [setup, initialView, PLAYER_MAX_HEALTH]
  | step ov dt g g' hr heq ih =>
      have hmax : PLAYER_MAX_HEALTH = 3 := rfl
      rw [hmax] at ih
      obtain ⟨hil, hiu⟩ := ih
      have hf := (frameStep_health_cases ov dt g).2.2.2
      unfold on_update at heq
      dsimp only at heq
      split_ifs at heq with h1 h2 h3
      · simp only [Status.playing.injEq] at heq
        subst heq
        have hpos : 0 < (frameStep ov dt g).health :=
          check_lose_false_health _ (by simpa using h1)
        have hh : (setup (frameStep ov dt g)
            ((frameStep ov dt g).level_index + 1)).health =
            (frameStep ov dt g).health := by
          simp [setup]
        rw [hh, hmax]
        rcases hf with hf | hf <;> rw [hf] at hpos ⊢ <;> omega
      · simp only [Status.playing.injEq] at heq
        subst heq
        have hpos : 0 < (frameStep ov dt g).health :=
          check_lose_false_health _ (by simpa using h1)
        rw [hmax]
        rcases hf with hf | hf <;> rw [hf] at hpos ⊢ <;> omega
  | keyFlags g l r hr ih => simpa using ih
  | jump g hr ih => simpa using ih

theorem health_bounded_and_lose (ov : Oracle) (dt : ℚ) (g : GameView)
    (hg : Reachable g) :
    (0 ≤ g.health ∧ g.health ≤ PLAYER_MAX_HEALTH) ∧
    ((frameStep ov dt g).health ≤ 0 →
      on_update ov dt g =
        Status.lost (frameStep ov dt g).score
          (frameStep ov dt g).level_name) := by
  refine ⟨reachable_health g hg, ?_⟩
  intro h0
  have hl : check_lose (frameStep ov dt g) = true := by
    simp [check_lose, h0]
  unfold on_update
  simp [hl]

theorem health_bounded_and_lose_witness :
    ((0 ≤ (setup initialView 0).health ∧
      (setup initialView 0).health ≤ PLAYER_MAX_HEALTH) ∧
    ((frameStep stillOracle 0 (setup initialView 0)).health ≤ 0 →
      on_update stillOracle 0 (setup initialView 0) =
        Status.lost (frameStep stillOracle 0 (setup initialView 0)).score
          (frameStep stillOracle 0 (setup initialView 0)).level_name)) :=
  health_bounded_and_lose stillOracle 0 (setup initialView 0)
    Reachable.start

/-- C3: in a frame that is not lost, the level is cleared exactly when the
player overlaps the goal and the cumulative score is at least the level's
total coin count; clearing a non-final level re-runs `setup` on the next
index with score and health preserved; clearing the final level ends the
session in the terminal `Won` state; no clear means play continues. -/
theorem goal_clear_transitions (ov : Oracle) (dt : ℚ) (g : GameView)
    (hnl : check_lose (frameStep ov dt g) = false) :
    (check_goal ov (frameStep ov dt g) =
      (ov.playerGoal (frameStep ov dt g).player (frameStep ov dt g).goal &&
        decide ((frameStep ov dt g).total_coins ≤
          (frameStep ov dt g).score))) ∧
    (check_goal ov (frameStep ov dt g) = true →
      (frameStep ov dt g).level_index + 1 < LEVELS.length →
      on_update ov dt g =
        Status.playing (setup (frameStep ov dt g)
          ((frameStep ov dt g).level_index + 1)) ∧
      (setup (frameStep ov dt g)
          ((frameStep ov dt g).level_index + 1)).score =
        (frameStep ov dt g).score ∧
      (setup (frameStep ov dt g)
          ((frameStep ov dt g).level_index + 1)).health =
        (frameStep ov dt g).health) ∧
    (check_goal ov (frameStep ov dt g) = true →
      ¬ ((frameStep ov dt g).level_index + 1 < LEVELS.length) →
      on_update ov dt g =
        Status.won (frameStep ov dt g).score
          (frameStep ov dt g).level_name) ∧
    (check_goal ov (frameStep ov dt g) = false →
      on_update ov dt g = Status.playing (frameStep ov dt g)) := by
  refine ⟨rfl, ?_, ?_, ?_⟩
  · intro hg hl
    refine ⟨?_, by simp [setup], by simp [setup]⟩
    unfold on_update
    simp [hnl, hg, hl]
  · intro hg hl
    unfold on_update
    simp [hnl, hg, hl]
  · intro hg
    unfold on_update
    simp [hnl, hg]

theorem goal_clear_transitions_witness :
    (check_lose (frameStep goalOracle 0 gCarry) = false) ∧
    ((check_goal goalOracle (frameStep goalOracle 0 gCarry) =
      (goalOracle.playerGoal (frameStep goalOracle 0 gCarry).player
          (frameStep goalOracle 0 gCarry).goal &&
        decide ((frameStep goalOracle 0 gCarry).total_coins ≤
          (frameStep goalOracle 0 gCarry).score))) ∧
    (check_goal goalOracle (frameStep goalOracle 0 gCarry) = true →
      (frameStep goalOracle 0 gCarry).level_index + 1 < LEVELS.length →
      on_update goalOracle 0 gCarry =
        Status.playing (setup (frameStep goalOracle 0 gCarry)
          ((frameStep goalOracle 0 gCarry).level_index + 1)) ∧
      (setup (frameStep goalOracle 0 gCarry)
          ((frameStep goalOracle 0 gCarry).level_index + 1)).score =
        (frameStep goalOracle 0 gCarry).score ∧
      (setup (frameStep goalOracle 0 gCarry)
          ((frameStep goalOracle 0 gCarry).level_index + 1)).health =
        (frameStep goalOracle 0 gCarry).health) ∧
    (check_goal goalOracle (frameStep goalOracle 0 gCarry) = true →
      ¬ ((frameStep goalOracle 0 gCarry).level_index + 1 < LEVELS.length) →
      on_update goalOracle 0 gCarry =
        Status.won (frameStep goalOracle 0 gCarry).score
          (frameStep goalOracle 0 gCarry).level_name) ∧
    (check_goal goalOracle (frameStep goalOracle 0 gCarry) = false →
      on_update goalOracle 0 gCarry =
        Status.playing (frameStep goalOracle 0 gCarry))) :=
  ⟨by norm_num [frameStep, preStep, handle_input, check_coin_collisions,
      check_enemy_collisions, check_hazard_collisions, check_lose, gCarry,
      goalOracle, setup, initialView, getLevel, LEVELS, level1, newPlayer,
      mkEnemy, Player.update_animation, EnemySprite.update,
      Hazard.update_animation, mkHazard, KILL_PLANE_Y, PLAYER_MAX_HEALTH,
      PLAYER_JUMP_SPEED, PLAYER_MOVE_SPEED],
   goal_clear_transitions goalOracle 0 gCarry
     (by norm_num [frameStep, preStep, handle_input, check_coin_collisions,
        check_enemy_collisions, check_hazard_collisions, check_lose, gCarry,
        goalOracle, setup, initialView, getLevel, LEVELS, level1, newPlayer,
        mkEnemy, Player.update_animation, EnemySprite.update,
        Hazard.update_animation, mkHazard, KILL_PLANE_Y, PLAYER_MAX_HEALTH,
        PLAYER_JUMP_SPEED, PLAYER_MOVE_SPEED])⟩

/-- C10: the goal gate compares the playthrough-cumulative score (which
`setup` carries over for every index above 0) against only the current
level's coin count, so a level entered with carried score `s > 0` can be
cleared after collecting just `total_coins - s` of its own coins — fewer
than the level's full coin count. -/
theorem goal_gate_cumulative (g : GameView) (i : ℕ) (ov : Oracle)
    (p : Player) (hi0 : 0 < i) (hil : i < LEVELS.length)
    (hs : 0 < g.score) (hle : g.score ≤ (getLevel i).coins.length)
    (hov : ov.playerGoal p (setup g i).goal = true) :
    (setup g i).score = g.score ∧
    (setup g i).total_coins = (getLevel i).coins.length ∧
    ∃ k : ℕ, k < (getLevel i).coins.length ∧
      check_goal ov
        { setup g i with
            score := (setup g i).score + k,
            player := p } = true := by
  have hne : i ≠ 0 := Nat.pos_iff_ne_zero.mp hi0
  have hsc : (setup g i).score = g.score := by simp [setup, hne]
  refine ⟨hsc, rfl, (getLevel i).coins.length - g.score, by omega, ?_⟩
  show (ov.playerGoal p (setup g i).goal &&
    decide ((setup g i).total_coins ≤
      (setup g i).score + ((getLevel i).coins.length - g.score))) = true
  have htot : (setup g i).total_coins = (getLevel i).coins.length := rfl
  rw [hov, hsc, htot]
  simp only [Bool.true_and, decide_eq_true_eq]
  omega

theorem goal_gate_cumulative_witness :
    (0 < 1 ∧ 1 < LEVELS.length ∧ 0 < gCarry.score ∧
      gCarry.score ≤ (getLevel 1).coins.length ∧
      goalOracle.playerGoal newPlayer (setup gCarry 1).goal = true) ∧
    ((setup gCarry 1).score = gCarry.score ∧
     (setup gCarry 1).total_coins = (getLevel 1).coins.length ∧
     ∃ k : ℕ, k < (getLevel 1).coins.length ∧
       check_goal goalOracle
         { setup gCarry 1 with
             score := (setup gCarry 1).score + k,
             player := newPlayer } = true) :=
  ⟨⟨by norm_num, by norm_num [LEVELS],
    by norm_num [gCarry, setup, initialView],
    by norm_num [gCarry, setup, initialView, getLevel, LEVELS, level2],
    rfl⟩,
   goal_gate_cumulative gCarry 1 goalOracle newPlayer (by norm_num)
     (by norm_num [LEVELS]) (by norm_num [gCarry, setup, initialView])
     (by norm_num [gCarry, setup, initialView, getLevel, LEVELS, level2])
     rfl⟩

lemma pymod_two_bounds (a : ℚ) : 0 ≤ pymod a 2 ∧ pymod a 2 < 2 := by
  unfold pymod
  constructor
  · have h := Int.floor_le (a / 2)
    linarith
  · have h := Int.lt_floor_add_one (a / 2)
    linarith

lemma pyint_zero_or_one (q : ℚ) (h0 : 0 ≤ q) (h2 : q < 2) :
    0 ≤ pyint q ∧ pyint q ≤ 1 := by
  unfold pyint
  rw [if_neg (not_lt.mpr h0)]
  have hlt : ⌊q⌋ < 2 := Int.floor_lt.mpr (by exact_mod_cast h2)
  have hge : 0 ≤ ⌊q⌋ := Int.floor_nonneg.mpr h0
  omega

/-- C2 counterexample: one `update_animation` call moves the water hazard's
`center_y` — the very position `_check_hazard_collisions` hands to the
overlap query — from its initial 75 to 76, both on the lone sprite and
inside the frame's movement phase, so the queried collision position does
not stay at its initial position. -/
theorem water_bob_counterexample :
    (waterW.update_animation (1/4)).center_y = 76 ∧
    waterW.center_y = 75 ∧
    (preStep stillOracle (1/4) (setup initialView 2)).hazards.map
        Hazard.center_y ≠
      (setup initialView 2).hazards.map Hazard.center_y := by
  have hws : ("water" = "lava") = False := by simp
  have hls : ("lava" = "lava") = True := by simp
  refine ⟨?_, rfl, ?_⟩
  · norm_num [waterW, mkHazard, hws, Hazard.update_animation, pymod, pyint]
  · norm_num [preStep, handle_input, stillOracle, setup, initialView,
      getLevel, LEVELS, level3, newPlayer, mkEnemy, mkHazard, hws, hls,
      Player.update_animation, EnemySprite.update, Hazard.update_animation,
      pymod, pyint, PLAYER_MOVE_SPEED]

/-- C2 as amended: the water hazard's animation moves its `center_y` — the
position used by the overlap/damage query — together with the drawn
position, to `base_y + int((6 * time) mod 2)`; the oscillation is bounded
(at most 1 pixel above `base_y`), `base_y` itself and `center_x` never
move. -/
theorem water_bob_query_offset (w : Hazard) (dt : ℚ)
    (hk : w.kind = .water) :
    (w.update_animation dt).center_y =
      w.base_y + (pyint (pymod (3 * ((w.time + dt) * 2)) 2) : ℚ) ∧
    (w.update_animation dt).base_y = w.base_y ∧
    (w.update_animation dt).center_x = w.center_x ∧
    w.base_y ≤ (w.update_animation dt).center_y ∧
    (w.update_animation dt).center_y ≤ w.base_y + 1 := by
  obtain ⟨k, x, y, wd, t, b, a⟩ := w
  cases hk
  obtain ⟨hm0, hm2⟩ := pymod_two_bounds (3 * ((t + dt) * 2))
  obtain ⟨hp0, hp1⟩ := pyint_zero_or_one _ hm0 hm2
  unfold Hazard.update_animation
  dsimp only
  refine ⟨rfl, rfl, rfl, ?_, ?_⟩
  · have : (0:ℚ) ≤ (pyint (pymod (3 * ((t + dt) * 2)) 2) : ℚ) := by
      exact_mod_cast hp0
    linarith
  · have : (pyint (pymod (3 * ((t + dt) * 2)) 2) : ℚ) ≤ 1 := by
      exact_mod_cast hp1
    linarith

theorem water_bob_query_offset_witness :
    waterW.kind = HazardKind.water ∧
    ((waterW.update_animation (1/4)).center_y =
      waterW.base_y +
        (pyint (pymod (3 * ((waterW.time + 1/4) * 2)) 2) : ℚ) ∧
    (waterW.update_animation (1/4)).base_y = waterW.base_y ∧
    (waterW.update_animation (1/4)).center_x = waterW.center_x ∧
    waterW.base_y ≤ (waterW.update_animation (1/4)).center_y ∧
    (waterW.update_animation (1/4)).center_y ≤ waterW.base_y + 1) :=
  ⟨rfl, water_bob_query_offset waterW (1/4) rfl⟩

lemma check_enemy_noop (ov : Oracle) (dt : ℚ) (X : GameView)
    (h1 : max 0 (X.invuln_timer - dt) = X.invuln_timer)
    (h2 : ¬ 0 < X.invuln_timer)
    (h3 : X.enemies.any (fun e => ov.playerEnemy X.player e) = false) :
    check_enemy_collisions ov dt X = X := by
  unfold check_enemy_collisions
  dsimp only
  rw [h1, if_neg h2]
  simp [h3]

lemma check_hazard_noop (ov : Oracle) (X : GameView)
    (h2 : ¬ 0 < X.invuln_timer)
    (h3 : X.hazards.any (fun h => ov.playerHazard X.player h) = false) :
    check_hazard_collisions ov X = X := by
  unfold check_hazard_collisions
  rw [if_neg h2]
  simp [h3]

/-- C9: `setup(i)` followed by a zero-elapsed-time update stays in
`Playing` and leaves the player's position, health, and score unchanged —
except that coins already overlapping at the spawn position are removed
and scored immediately; the abstract physics resolver is assumed not to
move the player on the zero-time step, and no enemy, hazard or goal
overlap holds at spawn. -/
theorem setup_zero_roundtrip (g : GameView) (i : ℕ) (ov : Oracle)
    (hi : i < LEVELS.length)
    (hh : 0 < (setup g i).health)
    (hphys : (spawnProbe ov g i).center_x = (setup g i).player.center_x ∧
      (spawnProbe ov g i).center_y = (setup g i).player.center_y)
    (henemy : ∀ e ∈ (setup g i).enemies.map EnemySprite.update,
      ov.playerEnemy (spawnProbe ov g i) e = false)
    (hhaz : ∀ h ∈ (setup g i).hazards.map (fun h => h.update_animation 0),
      ov.playerHazard (spawnProbe ov g i) h = false)
    (hgoal : ov.playerGoal (spawnProbe ov g i) (setup g i).goal = false) :
    ∃ g', on_update ov 0 (setup g i) = Status.playing g' ∧
      g'.player.center_x = (getLevel i).player_start.1 ∧
      g'.player.center_y = (getLevel i).player_start.2 ∧
      g'.health = (setup g i).health ∧
      g'.score = (setup g i).score +
        (setup g i).coins.countP
          (fun c => ov.playerCoin (spawnProbe ov g i) c) ∧
      g'.coins = (setup g i).coins.filter
        (fun c => !(ov.playerCoin (spawnProbe ov g i) c)) := by
  set X := check_coin_collisions ov (preStep ov 0 (setup g i)) with hX
  have hXpl : X.player = spawnProbe ov g i := rfl
  have hXinv : X.invuln_timer = 0 := rfl
  have hXen : X.enemies = (setup g i).enemies.map EnemySprite.update := rfl
  have hXhz : X.hazards =
      (setup g i).hazards.map (fun h => h.update_animation 0) := rfl
  have hXh : X.health = (setup g i).health := rfl
  have hXli : X.level_index = i := rfl
  have hXgoal : X.goal = (setup g i).goal := rfl
  have henop : check_enemy_collisions ov 0 X = X := by
    refine check_enemy_noop ov 0 X (by rw [hXinv]; norm_num)
      (by rw [hXinv]; norm_num) ?_
    rw [List.any_eq_false]
    intro e he
    rw [hXen] at he
    simp [hXpl, henemy e he]
  have hznop : check_hazard_collisions ov X = X := by
    refine check_hazard_noop ov X (by rw [hXinv]; norm_num) ?_
    rw [List.any_eq_false]
    intro h he
    rw [hXhz] at he
    simp [hXpl, hhaz h he]
  have hframe : frameStep ov 0 (setup g i) = X := by
    unfold frameStep
    rw [← hX, henop, hznop]
  have hi3 : i < 3 := by simpa [LEVELS] using hi
  have hkp : (getLevel i).kill_plane_y ≤ (getLevel i).player_start.2 := by
    interval_cases i <;>
      norm_num [getLevel, LEVELS, level1, level2, level3, KILL_PLANE_Y]
  have hlose : check_lose X = false := by
    have e2 : X.player.center_y = (getLevel i).player_start.2 := by
      rw [hXpl, hphys.2]; rfl
    simp only [check_lose, hXh, hXli, e2, Bool.or_eq_false_iff,
      decide_eq_false_iff_not, not_le, not_lt]
    exact ⟨hh, hkp⟩
  have hgoalf : check_goal ov X = false := by
    simp [check_goal, hXpl, hXgoal, hgoal]
  refine ⟨X, ?_, ?_, ?_, hXh, ?_, rfl⟩
  · unfold on_update
    rw [hframe]
    dsimp only
    rw [hlose, hgoalf]
    simp
  · rw [hXpl, hphys.1]; rfl
  · rw [hXpl, hphys.2]; rfl
  · rw [List.countP_eq_length_filter]; rfl

theorem setup_zero_roundtrip_witness :
    (0 < LEVELS.length ∧
     0 < (setup initialView 0).health ∧
     ((spawnProbe stillOracle initialView 0).center_x =
        (setup initialView 0).player.center_x ∧
      (spawnProbe stillOracle initialView 0).center_y =
        (setup initialView 0).player.center_y)) ∧
    (∃ g', on_update stillOracle 0 (setup initialView 0) =
        Status.playing g' ∧
      g'.player.center_x = (getLevel 0).player_start.1 ∧
      g'.player.center_y = (getLevel 0).player_start.2 ∧
      g'.health = (setup initialView 0).health ∧
      g'.score = (setup initialView 0).score +
        (setup initialView 0).coins.countP
          (fun c => stillOracle.playerCoin
            (spawnProbe stillOracle initialView 0) c) ∧
      g'.coins = (setup initialView 0).coins.filter
        (fun c => !(stillOracle.playerCoin
          (spawnProbe stillOracle initialView 0) c))) :=
  ⟨⟨by norm_num [LEVELS],
    by norm_num [setup, initialView, PLAYER_MAX_HEALTH],
    by constructor <;>
      norm_num [spawnProbe, stillOracle, handle_input, setup, initialView,
        newPlayer, getLevel, LEVELS, level1, Player.update_animation,
        PLAYER_MOVE_SPEED, ANIMATION_RATE]⟩,
   setup_zero_roundtrip initialView 0 stillOracle
     (by norm_num [LEVELS])
     (by norm_num [setup, initialView, PLAYER_MAX_HEALTH])
     (by constructor <;>
       norm_num [spawnProbe, stillOracle, handle_input, setup, initialView,
         newPlayer, getLevel, LEVELS, level1, Player.update_animation,
         PLAYER_MOVE_SPEED, ANIMATION_RATE])
     (fun e _ => rfl) (fun h _ => rfl) rfl⟩
